import Mathlib

/-!
Shallow embedding of the chemican-api change-tracking / notification service
(`src/index.js`, plus the earlier revision kept as `src/unnamed/part_001`).

The service exposes generic CRUD endpoints over MySQL tables and runs a
polling change detector: per watched table the `webhook_processed_records`
tracking table stores `last_processed_id` (the watermark) and
`last_check_time`; each poll cycle fetches rows with `id` greater than the
watermark (ordered ascending, `LIMIT 50`), dispatches each row to a webhook
sink and an email sink, and then persists the highest processed id.

Machine integers are modelled as `Nat` (row ids, timestamps) and `Int`
(view counts, whose differences may be negative); SQL result sets are
`List`s; JS exceptions are `Except JsErr`.
-/

/-- A JavaScript runtime error (anything `throw`n / a rejected promise). -/
inductive JsErr where
  | err (msg : String)
deriving DecidableEq, Repr

/-- A row of a watched identifier-tracked table (e.g. `form_submits`):
only the primary key `id` is relevant to the tracking logic; the rest of
the row rides along as an opaque payload. -/
structure FormRow where
  id : Nat
  payload : String
deriving DecidableEq, Repr

/-- The `webhook_processed_records` row for one watched table:
`last_processed_id` and `last_check_time` (timestamps as `Nat`). -/
structure TrackingRow where
  lastProcessedId : Nat
  lastCheckTime : Nat
deriving DecidableEq, Repr

/-- Semantics of the detection query issued by `checkForNewFormSubmissions`
(src/index.js:245-250):

  SELECT * FROM form_submits WHERE id > ? ORDER BY id ASC LIMIT 50

filter on `id > w`, sort ascending by `id`, truncate to the limit. -/
def detectNewRows (table : List FormRow) (w : Nat) (limit : Nat) : List FormRow :=
  ((table.filter (fun r => w < r.id)).insertionSort (fun a b => a.id ≤ b.id)).take limit

instance : IsTotal FormRow (fun a b => a.id ≤ b.id) :=
  ⟨fun a b => Nat.le_total a.id b.id⟩

instance : IsTrans FormRow (fun a b => a.id ≤ b.id) :=
  ⟨fun _ _ _ => Nat.le_trans⟩

/-- Every row returned by the detection query has `id > w`. -/
theorem detectNewRows_gt (table : List FormRow) (w limit : Nat) :
    ∀ r ∈ detectNewRows table w limit, w < r.id := by
  intro r hr
  have hr' : r ∈ (table.filter (fun r => w < r.id)).insertionSort
      (fun a b => a.id ≤ b.id) :=
    List.mem_of_mem_take hr
  rw [List.mem_insertionSort] at hr'
  have := List.of_mem_filter hr'
  simp only [decide_eq_true_eq] at this
  exact this

/-- The detection result is sorted ascending by id. -/
theorem detectNewRows_sorted (table : List FormRow) (w limit : Nat) :
    (detectNewRows table w limit).Pairwise (fun a b => a.id ≤ b.id) := by
  have hs : ((table.filter (fun r => w < r.id)).insertionSort
      (fun a b => a.id ≤ b.id)).Pairwise (fun a b => a.id ≤ b.id) :=
    List.sorted_insertionSort _ _
  exact hs.take

/-- The detection result never exceeds the batch limit. -/
theorem detectNewRows_length_le (table : List FormRow) (w limit : Nat) :
    (detectNewRows table w limit).length ≤ limit := by
  simp only [detectNewRows]
  exact List.length_take_le limit _

/-- The detection result has length `min limit (number of qualifying rows)`. -/
theorem detectNewRows_length (table : List FormRow) (w limit : Nat) :
    (detectNewRows table w limit).length =
      min limit (table.filter (fun r => w < r.id)).length := by
  simp only [detectNewRows, List.length_take]
  congr 1
  exact ((table.filter (fun r => w < r.id)).perm_insertionSort
    (fun a b => a.id ≤ b.id)).length_eq

/-- One attempted call to a notification sink, with the row id and whether
the underlying transport succeeded. -/
inductive SinkCall where
  | webhook (rid : Nat) (success : Bool)
  | email (rid : Nat) (success : Bool)
deriving DecidableEq, Repr

/-- The environment the dispatcher runs in: whether each sink is configured
(`POWER_AUTOMATE_WEBHOOK_URL` set, `emailTransporter` non-null) and, per row
id, the outcome of the underlying transport call (`axios.post` /
`transporter.sendMail`): `.ok` for a 2xx response, `.error` for a transport
error, timeout or non-2xx (axios rejects those). -/
structure SinkEnv where
  webhookConfigured : Bool
  emailConfigured : Bool
  webhookTransport : Nat → Except JsErr Unit
  emailTransport : Nat → Except JsErr Unit

/-- Model of `sendWebhookNotification` from src/index.js:508-537: if the webhook URL
is unset, return early with no attempt; otherwise POST and catch any error
("Log but don't throw — webhook failures should not break the polling
loop"), returning `true` on success and `false` on failure. The result is
the JS return value paired with the trace of sink attempts made. -/
def sendWebhookNotification (env : SinkEnv) (rid : Nat) :
    Except JsErr Bool × List SinkCall :=
  if env.webhookConfigured = false then (.ok false, [])
  else
    match env.webhookTransport rid with
    | .ok _ => (.ok true, [.webhook rid true])
    | .error _ => (.ok false, [.webhook rid false])

/-- Model of `sendWebhookNotification` in the earlier revision
src/unnamed/part_001:206-233: identical except that a transport failure is
re-thrown (`throw error;`) instead of being swallowed. -/
def sendWebhookNotificationV1 (env : SinkEnv) (rid : Nat) :
    Except JsErr Bool × List SinkCall :=
  if env.webhookConfigured = false then (.ok false, [])
  else
    match env.webhookTransport rid with
    | .ok _ => (.ok true, [.webhook rid true])
    | .error e => (.error e, [.webhook rid false])

/-- Model of `sendFormSubmissionEmail` from src/index.js:625-663: if no transporter
is configured, return with no attempt; otherwise build the templated mail
and send it, catching any `sendMail` error (logged only, never re-thrown). -/
def sendFormSubmissionEmail (env : SinkEnv) (rid : Nat) :
    Except JsErr Unit × List SinkCall :=
  if env.emailConfigured = false then (.ok (), [])
  else
    match env.emailTransport rid with
    | .ok _ => (.ok (), [.email rid true])
    | .error _ => (.ok (), [.email rid false])

/-- The body of the per-submission `try` block in
`checkForNewFormSubmissions` (src/index.js:261-267): await the webhook
notification, then await the email notification; a thrown error aborts the
remainder of the block (and is caught by the surrounding `catch`). -/
def processSubmission (env : SinkEnv) (rid : Nat) :
    Except JsErr Unit × List SinkCall :=
  let (w, c1) := sendWebhookNotification env rid
  match w with
  | .error e => (.error e, c1)
  | .ok _ =>
    let (m, c2) := sendFormSubmissionEmail env rid
    match m with
    | .error e => (.error e, c1 ++ c2)
    | .ok _ => (.ok (), c1 ++ c2)

/-- The per-submission block of the earlier revision
(src/unnamed/part_001:168-185): only the webhook notification is sent, and
it may throw. -/
def processSubmissionV1 (env : SinkEnv) (rid : Nat) :
    Except JsErr Unit × List SinkCall :=
  let (w, c1) := sendWebhookNotificationV1 env rid
  match w with
  | .error e => (.error e, c1)
  | .ok _ => (.ok (), c1)

/-- The `for (const submission of newSubmissions)` loop shared by both
revisions (src/index.js:260-279, src/unnamed/part_001:168-185),
parameterised by the per-row body `procOne`: starting from
`highestProcessedId = acc`, a row is processed only when its id exceeds the
running `highestProcessedId`; on normal completion `highestProcessedId`
becomes that row's id; a thrown error is caught ("Continue with next
submission even if this one fails") leaving `highestProcessedId` as is.
Returns the final `highestProcessedId` and the trace of sink attempts. -/
def processLoop (procOne : Nat → Except JsErr Unit × List SinkCall) :
    List Nat → Nat → Nat × List SinkCall
  | [], acc => (acc, [])
  | rid :: rest, acc =>
    if acc < rid then
      let (r, calls) := procOne rid
      match r with
      | .ok _ =>
        let (acc', calls') := processLoop procOne rest rid
        (acc', calls ++ calls')
      | .error _ =>
        let (acc', calls') := processLoop procOne rest acc
        (acc', calls ++ calls')
    else
      processLoop procOne rest acc

/-- Result of one poll cycle over an identifier-tracked table. -/
structure CycleResult where
  store : TrackingRow
  calls : List SinkCall
deriving DecidableEq, Repr

/-- Model of `checkForNewFormSubmissions` (src/index.js:229-298) as a function of the
table contents, the stored tracking row and the current time `now`: read the
watermark from the tracking store, fetch the batch (`id > w`, ascending,
`LIMIT 50`), run the dispatch loop, and — only when `highestProcessedId`
moved — persist it together with `last_check_time = CURRENT_TIMESTAMP`.
A zero-row batch returns before touching the store. -/
def checkForNewFormSubmissions (env : SinkEnv) (table : List FormRow)
    (store : TrackingRow) (now : Nat) : CycleResult :=
  let currentTrackedId := store.lastProcessedId
  let newSubmissions := detectNewRows table currentTrackedId 50
  if newSubmissions.isEmpty then ⟨store, []⟩
  else
    let (highest, calls) :=
      processLoop (processSubmission env) (newSubmissions.map (·.id)) currentTrackedId
    if currentTrackedId < highest then (⟨⟨highest, now⟩, calls⟩ : CycleResult)
    else ⟨store, calls⟩

/-- Model of `checkForNewFormSubmissions` in the earlier revision
(src/unnamed/part_001:133-204): same shape, but the per-row body is
`processSubmissionV1`, whose webhook failure throws into the loop's catch. -/
def checkForNewFormSubmissionsV1 (env : SinkEnv) (table : List FormRow)
    (store : TrackingRow) (now : Nat) : CycleResult :=
  -- part_001:134: `if (!POWER_AUTOMATE_WEBHOOK_URL || !isInitialCheckComplete) return;`
  if env.webhookConfigured = false then ⟨store, []⟩ else
  let currentTrackedId := store.lastProcessedId
  let newSubmissions := detectNewRows table currentTrackedId 50
  if newSubmissions.isEmpty then ⟨store, []⟩
  else
    let (highest, calls) :=
      processLoop (processSubmissionV1 env) (newSubmissions.map (·.id)) currentTrackedId
    if currentTrackedId < highest then (⟨⟨highest, now⟩, calls⟩ : CycleResult)
    else ⟨store, calls⟩

/-- Semantics of the unconditional tracking-table write used by every
advancement site (src/index.js:287-291, 358-362, 429-433, 497-501, 911-915,
1137-1141):

  UPDATE webhook_processed_records
  SET last_processed_id = ?, last_check_time = CURRENT_TIMESTAMP
  WHERE table_name = ?

The statement carries no guard on the currently stored value: whatever
`newId` the caller passes replaces `last_processed_id`. -/
def updateTracking (_store : TrackingRow) (newId : Nat) (now : Nat) : TrackingRow :=
  ⟨newId, now⟩

/-- The `(id, view_count)` projection of one `blog_posts` row. -/
structure PostView where
  id : Nat
  viewCount : Int
deriving DecidableEq, Repr

/-- The `lastKnownBlogPostsState` object: a map from post id to the
last-observed `view_count`, modelled as an association list. -/
abbrev BlogSnapshot := List (Nat × Int)

/-- JS object assignment `lastKnownBlogPostsState[post.id] = post.view_count`:
overwrite an existing key, otherwise append the new key. -/
def snapUpdate (snap : BlogSnapshot) (i : Nat) (v : Int) : BlogSnapshot :=
  if (snap.lookup i).isSome then
    snap.map (fun p => if p.1 = i then (i, v) else p)
  else snap ++ [(i, v)]

/-- The `_change_details` annotation attached to a changed post
(src/index.js:465-469). -/
structure ViewCountChange where
  id : Nat
  previousViewCount : Int
  newViewCount : Int
  difference : Int
deriving DecidableEq, Repr

/-- The detection fold of `checkForBlogPostViewCountChanges`
(src/index.js:452-477): for each current post, look up its previous
view count in the snapshot; a post is changed when absent
(`previousViewCount === undefined`) or when the stored value differs.
For a changed post the change details are
`previous = (undefined ? 0 : prev)`, `new = view_count`,
`difference = (undefined ? view_count : view_count - prev)`, and the
snapshot entry is set to the current value. (The code re-fetches the full
row by id before annotating; the row was selected in this same cycle, so
the re-fetch finds it and the guard `fullPostDetails.length > 0` holds.)
Returns the changed-post list and the updated snapshot. -/
def scanViewCountChanges (snap : BlogSnapshot) :
    List PostView → List ViewCountChange × BlogSnapshot
  | [] => ([], snap)
  | p :: rest =>
    match snap.lookup p.id with
    | none =>
      let ev : ViewCountChange := ⟨p.id, 0, p.viewCount, p.viewCount⟩
      let (evs, snap') := scanViewCountChanges (snapUpdate snap p.id p.viewCount) rest
      (ev :: evs, snap')
    | some prev =>
      if prev ≠ p.viewCount then
        let ev : ViewCountChange := ⟨p.id, prev, p.viewCount, p.viewCount - prev⟩
        let (evs, snap') := scanViewCountChanges (snapUpdate snap p.id p.viewCount) rest
        (ev :: evs, snap')
      else
        scanViewCountChanges snap rest

/-- Result of one `blog_posts` poll cycle. -/
structure BlogCycleResult where
  events : List ViewCountChange
  snapshot : BlogSnapshot
  store : TrackingRow
  calls : List SinkCall
deriving Repr

/-- Model of `checkForBlogPostViewCountChanges` (src/index.js:442-506): select the
`(id, view_count)` projection, run the detection fold against the snapshot,
and if no post changed return before touching the tracking table; otherwise
send one webhook notification per changed post (each in its own try/catch;
`sendWebhookNotification` never throws) and then write
`last_processed_id = Math.max(...currentPosts.map(id), 0)` together with
`last_check_time = CURRENT_TIMESTAMP`. -/
def checkForBlogPostViewCountChanges (env : SinkEnv) (posts : List PostView)
    (snap : BlogSnapshot) (store : TrackingRow) (now : Nat) : BlogCycleResult :=
  let (events, snap') := scanViewCountChanges snap posts
  if events.isEmpty then ⟨events, snap', store, []⟩
  else
    let calls := (events.map (fun e => (sendWebhookNotification env e.id).2)).flatten
    let highestBlogPostId := (posts.map (·.id)).foldr max 0
    ⟨events, snap', updateTracking store highestBlogPostId now, calls⟩

/-- An extracted JSON object from a request body, as field/value pairs
(the result of `extractDataFromRequest` when it yields an object). -/
abbrev ReqData := List (String × String)

/-- Membership test of the character class `[a-zA-Z0-9_]` used by the
table-name and field-name validation regex `/^[a-zA-Z0-9_]+$/`. -/
def isWordChar (c : Char) : Bool :=
  c.isAlphanum || c = '_'

/-- The identifier allow-list test `/^[a-zA-Z0-9_]+$/.test(s)` applied to
every table name (and to field names in the search and delete-where
endpoints): nonempty, and every character in `[a-zA-Z0-9_]`. -/
def isValidTableName (s : String) : Bool :=
  !s.isEmpty && s.toList.all isWordChar

/-- The test `idOrGuid.match(/^\d+$/)` used by the update retry path. -/
def isDigitsOnly (s : String) : Bool :=
  !s.isEmpty && s.toList.all Char.isDigit

/-- A stored table row as the CRUD layer sees it: primary key `id`,
secondary unique token `guid`, remaining columns opaque. -/
structure Rec where
  id : Nat
  guid : String
  fields : ReqData
deriving DecidableEq, Repr

/-- One SQL statement issued by a handler (what reaches `pool.query`). -/
inductive Sql where
  | selectAll (t : String)
  | selectByField (t f v : String)
  | selectById (t p : String)
  | selectByGuid (t p : String)
  | selectByIdOrGuid (t p : String)
  | insert (t : String) (data : ReqData)
  | updateById (t : String) (data : ReqData) (p : String)
  | updateByGuid (t : String) (data : ReqData) (p : String)
  | deleteById (t p : String)
  | deleteByGuid (t p : String)
  | deleteWhere (t : String) (conds : ReqData)
  | selectMaxId (t : String)
  | updateTrackingRow (t : String) (newId : Nat)
deriving DecidableEq, Repr

/-- An observable step of a handler: an executed SQL statement, a
notification dispatch, or the HTTP response. -/
inductive Ev where
  | sql (q : Sql)
  | dispatch (c : SinkCall)
  | respond (status : Nat)
deriving DecidableEq, Repr

/-- The database as an oracle for query results: each operation returns
what MySQL would (result rows, `insertId`, `affectedRows`, `MAX(id)`).
Handlers consult it only through recorded `Ev.sql` events. -/
structure Db where
  select : String → List Rec
  selectByField : String → String → String → List Rec
  selectById : String → String → List Rec
  selectByGuid : String → String → List Rec
  selectByIdOrGuid : String → String → List Rec
  insertId : String → ReqData → Nat
  updateById : String → ReqData → String → Nat
  updateByGuid : String → ReqData → String → Nat
  deleteById : String → String → Nat
  deleteByGuid : String → String → Nat
  deleteWhere : String → ReqData → Nat
  maxId : String → Nat

/-- Response of a read/update/delete endpoint: HTTP status, the
single-record JSON body when there is one (`none` stands for `{}`, a list
body or an error body), and the trace of observable steps in order. -/
structure HandlerResult where
  status : Nat
  body : Option Rec
  events : List Ev
deriving Repr

/-- Handler of `GET /api/tables/:tableName` (src/index.js:797-809):
validate the table name, then `SELECT * FROM <table>`. -/
def getTableHandler (db : Db) (tableName : String) : HandlerResult :=
  if !isValidTableName tableName then ⟨400, none, [.respond 400]⟩
  else
    let _results := db.select tableName
    ⟨200, none, [.sql (.selectAll tableName), .respond 200]⟩

/-- Handler of `GET /api/tables/:tableName/search?field=..&value=..`
(src/index.js:812-833): validate the table name, require both query
params, validate the field name, then select and return the first match
(or `null`, modelled as `none`). -/
def searchTableHandler (db : Db) (tableName : String)
    (fieldParam valueParam : Option String) : HandlerResult :=
  if !isValidTableName tableName then ⟨400, none, [.respond 400]⟩
  else
    match fieldParam, valueParam with
    | some f, some v =>
      if !isValidTableName f then ⟨400, none, [.respond 400]⟩
      else
        let results := db.selectByField tableName f v
        ⟨200, results.head?, [.sql (.selectByField tableName f v), .respond 200]⟩
    | _, _ => ⟨400, none, [.respond 400]⟩

/-- Handler of `GET /api/tables/:tableName/:idOrGuid`
(src/index.js:836-864): validate the table name; when the parameter is
numeric-looking (`!isNaN(idOrGuid)`, supplied as the oracle `jsIsNum`)
first `SELECT ... WHERE id = ?` and return the row on a hit; otherwise
(or on a miss) `SELECT ... WHERE guid = ?` and respond
`results[0] || {}` with status 200. -/
def getRecordHandler (db : Db) (jsIsNum : String → Bool)
    (tableName idOrGuid : String) : HandlerResult :=
  if !isValidTableName tableName then ⟨400, none, [.respond 400]⟩
  else
    if jsIsNum idOrGuid then
      let results := db.selectById tableName idOrGuid
      match results.head? with
      | some r => ⟨200, some r, [.sql (.selectById tableName idOrGuid), .respond 200]⟩
      | none =>
        let results2 := db.selectByGuid tableName idOrGuid
        ⟨200, results2.head?,
          [.sql (.selectById tableName idOrGuid),
           .sql (.selectByGuid tableName idOrGuid), .respond 200]⟩
    else
      let results2 := db.selectByGuid tableName idOrGuid
      ⟨200, results2.head?, [.sql (.selectByGuid tableName idOrGuid), .respond 200]⟩

/-- The process-local watermark mirror plus the durable tracking row for
`form_submits`, the pieces of state the create and reset handlers touch. -/
structure AppState where
  lastKnownFormSubmitId : Nat
  formTracking : TrackingRow
deriving DecidableEq, Repr

/-- Response of the create endpoint. -/
structure PostResult where
  status : Nat
  insertedId : Option Nat
  state : AppState
  events : List Ev
deriving Repr

/-- Handler of `POST /api/tables/:tableName` (src/index.js:867-933):
reject when the extracted body is not an object (`data? = none`); validate
the table name; strip any client-supplied `id`; reject an empty payload;
`INSERT INTO <table> SET ?` yielding `insertId`; and for `form_submits`
set `lastKnownFormSubmitId = Math.max(lastKnownFormSubmitId, insertId)`
and persist it to `webhook_processed_records` before responding. The
synchronous webhook block is commented out in this revision
(src/index.js:919-926), so no dispatch event is emitted. -/
def postTableHandler (db : Db) (st : AppState) (now : Nat)
    (tableName : String) (dataOpt : Option ReqData) : PostResult :=
  match dataOpt with
  | none => ⟨400, none, st, [.respond 400]⟩
  | some data =>
    if !isValidTableName tableName then ⟨400, none, st, [.respond 400]⟩
    else
      let cleaned := data.filter (fun kv => kv.1 ≠ "id")
      if cleaned.isEmpty then ⟨400, none, st, [.respond 400]⟩
      else
        let newRecordId := db.insertId tableName cleaned
        if tableName = "form_submits" then
          let newLast := max st.lastKnownFormSubmitId newRecordId
          let st' : AppState := ⟨newLast, updateTracking st.formTracking newLast now⟩
          ⟨200, some newRecordId, st',
            [.sql (.insert tableName cleaned),
             .sql (.updateTrackingRow "form_submits" newLast), .respond 200]⟩
        else
          ⟨200, some newRecordId, st, [.sql (.insert tableName cleaned), .respond 200]⟩

/-- Handler of `PUT /api/tables/:tableName/:idOrGuid`
(src/index.js:936-1026): reject a non-object body; validate the table
name; strip `id` from the payload; reject an empty payload; update by id
when the parameter is numeric-looking (falling back to guid on zero
affected rows), otherwise by guid (falling back to id when the parameter
is all digits); 404 when nothing matched; on success re-fetch the record
by `id = ? OR guid = ?` and return it. -/
def putTableHandler (db : Db) (jsIsNum : String → Bool)
    (tableName idOrGuid : String) (dataOpt : Option ReqData) : HandlerResult :=
  match dataOpt with
  | none => ⟨400, none, [.respond 400]⟩
  | some data =>
    if !isValidTableName tableName then ⟨400, none, [.respond 400]⟩
    else
      let cleaned := data.filter (fun kv => kv.1 ≠ "id")
      if cleaned.isEmpty then ⟨400, none, [.respond 400]⟩
      else
        let refetch (pre : List Ev) : HandlerResult :=
          -- the refetch runs `SELECT * FROM t WHERE id = ? OR guid = ? LIMIT 1`
          ⟨200, (db.selectByIdOrGuid tableName idOrGuid).head?,
            pre ++ [.sql (.selectByIdOrGuid tableName idOrGuid), .respond 200]⟩
        if jsIsNum idOrGuid then
          let affected := db.updateById tableName cleaned idOrGuid
          if affected > 0 then
            refetch [.sql (.updateById tableName cleaned idOrGuid)]
          else
            let retried := db.updateByGuid tableName cleaned idOrGuid
            if retried > 0 then
              refetch [.sql (.updateById tableName cleaned idOrGuid),
                       .sql (.updateByGuid tableName cleaned idOrGuid)]
            else
              ⟨404, none, [.sql (.updateById tableName cleaned idOrGuid),
                           .sql (.updateByGuid tableName cleaned idOrGuid), .respond 404]⟩
        else
          let affected := db.updateByGuid tableName cleaned idOrGuid
          if affected > 0 then
            refetch [.sql (.updateByGuid tableName cleaned idOrGuid)]
          else if isDigitsOnly idOrGuid then
            let retried := db.updateById tableName cleaned idOrGuid
            if retried > 0 then
              refetch [.sql (.updateByGuid tableName cleaned idOrGuid),
                       .sql (.updateById tableName cleaned idOrGuid)]
            else
              ⟨404, none, [.sql (.updateByGuid tableName cleaned idOrGuid),
                           .sql (.updateById tableName cleaned idOrGuid), .respond 404]⟩
          else
            ⟨404, none, [.sql (.updateByGuid tableName cleaned idOrGuid), .respond 404]⟩

/-- Handler of `DELETE /api/tables/:tableName/where?f=v&...`
(src/index.js:1030-1060): validate the table name, require at least one
query parameter, validate every field name, then delete and report 404
when nothing matched. -/
def deleteWhereHandler (db : Db) (tableName : String) (conds : ReqData) :
    HandlerResult :=
  if !isValidTableName tableName then ⟨400, none, [.respond 400]⟩
  else if conds.isEmpty then ⟨400, none, [.respond 400]⟩
  else if conds.any (fun kv => !isValidTableName kv.1) then ⟨400, none, [.respond 400]⟩
  else
    let affected := db.deleteWhere tableName conds
    if affected > 0 then ⟨200, none, [.sql (.deleteWhere tableName conds), .respond 200]⟩
    else ⟨404, none, [.sql (.deleteWhere tableName conds), .respond 404]⟩

/-- Handler of `DELETE /api/tables/:tableName/:idOrGuid`
(src/index.js:1063-1098): validate the table name; delete by id when the
parameter is numeric-looking, else (or on zero affected rows) by guid;
404 when neither matched. -/
def deleteRecordHandler (db : Db) (jsIsNum : String → Bool)
    (tableName idOrGuid : String) : HandlerResult :=
  if !isValidTableName tableName then ⟨400, none, [.respond 400]⟩
  else
    if jsIsNum idOrGuid then
      let affected := db.deleteById tableName idOrGuid
      if affected > 0 then
        ⟨200, none, [.sql (.deleteById tableName idOrGuid), .respond 200]⟩
      else
        let byGuid := db.deleteByGuid tableName idOrGuid
        if byGuid > 0 then
          ⟨200, none, [.sql (.deleteById tableName idOrGuid),
                       .sql (.deleteByGuid tableName idOrGuid), .respond 200]⟩
        else
          ⟨404, none, [.sql (.deleteById tableName idOrGuid),
                       .sql (.deleteByGuid tableName idOrGuid), .respond 404]⟩
    else
      let byGuid := db.deleteByGuid tableName idOrGuid
      if byGuid > 0 then
        ⟨200, none, [.sql (.deleteByGuid tableName idOrGuid), .respond 200]⟩
      else
        ⟨404, none, [.sql (.deleteByGuid tableName idOrGuid), .respond 404]⟩

/-- Response of the reset-tracking endpoint. -/
structure ResetResult where
  status : Nat
  resetToId : Option Nat
  state : AppState
  events : List Ev
deriving Repr

/-- Handler of `POST /api/reset-tracking/:tableName`
(src/index.js:1118-1155): validate the table name; take `resetToId` from
the body or fall back to `SELECT COALESCE(MAX(id), 0)`; write it to the
tracking table unconditionally (administrative override of monotonicity);
and mirror it into `lastKnownFormSubmitId` when the table is
`form_submits`. -/
def resetTrackingHandler (db : Db) (st : AppState) (now : Nat)
    (tableName : String) (resetToIdOpt : Option Nat) : ResetResult :=
  if !isValidTableName tableName then ⟨400, none, st, [.respond 400]⟩
  else
    match resetToIdOpt with
    | some rid =>
      let st' := if tableName = "form_submits" then
          (⟨rid, updateTracking st.formTracking rid now⟩ : AppState)
        else st
      ⟨200, some rid, st', [.sql (.updateTrackingRow tableName rid), .respond 200]⟩
    | none =>
      let rid := db.maxId tableName
      let st' := if tableName = "form_submits" then
          (⟨rid, updateTracking st.formTracking rid now⟩ : AppState)
        else st
      ⟨200, some rid, st',
        [.sql (.selectMaxId tableName), .sql (.updateTrackingRow tableName rid),
         .respond 200]⟩

/-- A sink environment where both sinks are configured and every transport
call succeeds. -/
def envAllOk : SinkEnv := ⟨true, true, fun _ => .ok (), fun _ => .ok ()⟩

/-- A sink environment where both sinks are configured and every transport
call fails (receiver unreachable). -/
def envAllDown : SinkEnv :=
  ⟨true, true, fun _ => .error (.err "ETIMEDOUT"), fun _ => .error (.err "ETIMEDOUT")⟩

/-- A sink environment where the webhook transport always fails while the
email transport succeeds. -/
def envWebhookDown : SinkEnv :=
  ⟨true, true, fun _ => .error (.err "ECONNREFUSED"), fun _ => .ok ()⟩

/-- A sink environment (webhook only, as in the part_001 revision) whose
webhook transport fails exactly for row id 2. -/
def envRow2Down : SinkEnv :=
  ⟨true, false, fun rid => if rid = 2 then .error (.err "ETIMEDOUT") else .ok (),
   fun _ => .ok ()⟩

/-- A database oracle with empty tables (every select returns no rows,
`insertId` is 1, every update/delete affects no rows). -/
def dbEmpty : Db :=
  ⟨fun _ => [], fun _ _ _ => [], fun _ _ => [], fun _ _ => [], fun _ _ => [],
   fun _ _ => 1, fun _ _ _ => 0, fun _ _ _ => 0, fun _ _ => 0, fun _ _ => 0,
   fun _ _ => 0, fun _ => 0⟩

/-- A database oracle whose INSERT yields `insertId = 42`. -/
def dbInsert42 : Db :=
  ⟨fun _ => [], fun _ _ _ => [], fun _ _ => [], fun _ _ => [], fun _ _ => [],
   fun _ _ => 42, fun _ _ _ => 0, fun _ _ _ => 0, fun _ _ => 0, fun _ _ => 0,
   fun _ _ => 0, fun _ => 0⟩

/-- C5: Bounded ordered detection query — for watermark `W` and the default
batch limit 50, the detection query returns only rows with `id > W`, in
ascending id order, at most 50 of them (none when no row qualifies), and
with a backlog of 200 qualifying rows it returns exactly 50. -/
theorem detection_query_bounded_ordered (table : List FormRow) (w : Nat) :
    (∀ r ∈ detectNewRows table w 50, w < r.id) ∧
    (detectNewRows table w 50).Pairwise (fun a b => a.id ≤ b.id) ∧
    (detectNewRows table w 50).length ≤ 50 ∧
    ((table.filter (fun r => w < r.id)).length = 0 → detectNewRows table w 50 = []) ∧
    ((table.filter (fun r => w < r.id)).length = 200 →
      (detectNewRows table w 50).length = 50) := by
  refine ⟨detectNewRows_gt table w 50, detectNewRows_sorted table w 50,
    detectNewRows_length_le table w 50, ?_, ?_⟩
  · intro h0
    have := detectNewRows_length table w 50
    rw [h0] at this
    simpa using List.length_eq_zero.mp (by omega)
  · intro h200
    have := detectNewRows_length table w 50
    rw [h200] at this
    omega

set_option maxRecDepth 4000 in
/-- C5 witness: with watermark 0 and a 200-row backlog (ids 1..200), one
cycle detects exactly 50 rows. -/
theorem detection_query_bounded_ordered_witness :
    (((List.range 200).map (fun i => (⟨i + 1, ""⟩ : FormRow))).filter
        (fun r => 0 < r.id)).length = 200 ∧
    (detectNewRows ((List.range 200).map (fun i => ⟨i + 1, ""⟩)) 0 50).length = 50 :=
  ⟨by decide,
   (detection_query_bounded_ordered ((List.range 200).map (fun i => ⟨i + 1, ""⟩)) 0).2.2.2.2
     (by decide)⟩

/-- The events reported by a blog_posts poll cycle are exactly the changed
posts found by the detection fold, whatever the sink outcomes. -/
theorem blogCycle_events (env : SinkEnv) (posts : List PostView)
    (snap : BlogSnapshot) (store : TrackingRow) (now : Nat) :
    (checkForBlogPostViewCountChanges env posts snap store now).events =
      (scanViewCountChanges snap posts).1 := by
  unfold checkForBlogPostViewCountChanges
  rcases h : scanViewCountChanges snap posts with ⟨evs, snap'⟩
  simp only [h]
  split <;> rfl

/-- A row absent from the snapshot is reported with previous 0, new `v`,
difference `v`. -/
theorem scan_single_new (snap : BlogSnapshot) (i : Nat) (v : Int)
    (h : snap.lookup i = none) :
    (scanViewCountChanges snap [⟨i, v⟩]).1 = [⟨i, 0, v, v⟩] := by
  simp [scanViewCountChanges, h]

/-- A row whose metric equals its snapshot entry is not reported. -/
theorem scan_single_same (snap : BlogSnapshot) (i : Nat) (v : Int)
    (h : snap.lookup i = some v) :
    (scanViewCountChanges snap [⟨i, v⟩]).1 = [] := by
  simp [scanViewCountChanges, h]

/-- A row whose metric moved from `p` to `v` is reported with previous `p`,
new `v`, difference `v - p`. -/
theorem scan_single_changed (snap : BlogSnapshot) (i : Nat) (p v : Int)
    (h : snap.lookup i = some p) (hp : p ≠ v) :
    (scanViewCountChanges snap [⟨i, v⟩]).1 = [⟨i, p, v, v - p⟩] := by
  simp [scanViewCountChanges, h, hp]

/-- C4: Metric-change detection correctness — a cycle on a post with no
snapshot entry and view count `v` reports previous 0, new `v`,
difference `v`; a cycle on a post whose snapshot entry equals its current
view count `v` reports no change; and a cycle on a post whose view count
moved from snapshot value `p` to `w ≠ p` reports previous `p`, new `w`,
difference `w - p`. -/
theorem metric_change_detection_correct (env : SinkEnv) (store : TrackingRow)
    (now i : Nat) (v p w : Int) (s1 s2 s3 : BlogSnapshot)
    (h1 : s1.lookup i = none) (h2 : s2.lookup i = some v)
    (h3 : s3.lookup i = some p) (hpw : p ≠ w) :
    (checkForBlogPostViewCountChanges env [⟨i, v⟩] s1 store now).events =
      [⟨i, 0, v, v⟩] ∧
    (checkForBlogPostViewCountChanges env [⟨i, v⟩] s2 store now).events = [] ∧
    (checkForBlogPostViewCountChanges env [⟨i, w⟩] s3 store now).events =
      [⟨i, p, w, w - p⟩] := by
  refine ⟨?_, ?_, ?_⟩
  · rw [blogCycle_events]
    exact scan_single_new s1 i v h1
  · rw [blogCycle_events]
    exact scan_single_same s2 i v h2
  · rw [blogCycle_events]
    exact scan_single_changed s3 i p w h3 hpw

/-- C4 witness: the spec's concrete scenario — no entry and view count 7
gives (0, 7, 7); entry 7 and view count 7 gives no change; entry 7 and
view count 10 gives (7, 10, 3). -/
theorem metric_change_detection_correct_witness :
    (checkForBlogPostViewCountChanges envAllOk [⟨1, 7⟩] [] ⟨0, 0⟩ 9).events =
      [⟨1, 0, 7, 7⟩] ∧
    (checkForBlogPostViewCountChanges envAllOk [⟨1, 7⟩] [(1, 7)] ⟨0, 0⟩ 9).events = [] ∧
    (checkForBlogPostViewCountChanges envAllOk [⟨1, 10⟩] [(1, 7)] ⟨0, 0⟩ 9).events =
      [⟨1, 7, 10, 3⟩] := by
  have h := metric_change_detection_correct envAllOk ⟨0, 0⟩ 9 1 7 7 10 [] [(1, 7)]
    [(1, 7)] (by decide) (by decide) (by decide) (by decide)
  simpa using h

/-- C3: the tracking-store write layer applies a lower watermark instead of
rejecting it — with the `blog_posts` tracking row at `last_processed_id = 5`
and the table now holding only post 3 (whose view count changed from the
snapshot value 10 to 12), the cycle writes `last_processed_id = 3`,
moving the stored watermark backwards. -/
theorem tracking_store_applies_regression :
    (checkForBlogPostViewCountChanges envAllOk [⟨3, 12⟩] [(3, 10)] ⟨5, 0⟩ 7).store.lastProcessedId
      < TrackingRow.lastProcessedId ⟨5, 0⟩ := by decide

/-- C6 counterexample: a poll cycle that finds zero qualifying rows leaves
`last_check_time` untouched — with the stored row `⟨0, 0⟩`, an empty table
and current time 5, the cycle does not write `last_check_time = 5`. -/
theorem zero_row_cycle_leaves_check_time :
    (checkForNewFormSubmissions envAllOk [] ⟨0, 0⟩ 5).store.lastCheckTime ≠ 5 := by
  decide

/-- C6 amended: `last_check_time` is written only by cycles that persist a
watermark advancement (identifier-tracked path) or detect at least one
view-count change (blog_posts path); any other cycle leaves the tracking
row — including `last_check_time` — unchanged. -/
theorem check_time_updated_only_on_advance (env : SinkEnv) (table : List FormRow)
    (posts : List PostView) (snap : BlogSnapshot) (store : TrackingRow) (now : Nat) :
    ((checkForNewFormSubmissions env table store now).store = store ∨
      ((checkForNewFormSubmissions env table store now).store.lastCheckTime = now ∧
       store.lastProcessedId <
         (checkForNewFormSubmissions env table store now).store.lastProcessedId)) ∧
    ((checkForBlogPostViewCountChanges env posts snap store now).store = store ∨
      ((checkForBlogPostViewCountChanges env posts snap store now).store.lastCheckTime = now ∧
       (checkForBlogPostViewCountChanges env posts snap store now).events ≠ [])) := by
  constructor
  · unfold checkForNewFormSubmissions
    by_cases h : (detectNewRows table store.lastProcessedId 50).isEmpty = true
    · left
      simp [h]
    · by_cases hlt : store.lastProcessedId <
          (processLoop (processSubmission env)
            ((detectNewRows table store.lastProcessedId 50).map (·.id))
            store.lastProcessedId).1
      · right
        simp [h, hlt]
      · left
        simp [h, hlt]
  · unfold checkForBlogPostViewCountChanges
    rcases h : scanViewCountChanges snap posts with ⟨evs, snap'⟩
    rcases hevs : evs with _ | ⟨e, evrest⟩
    · simp
    · right
      simp [updateTracking]

/-- C1: the watermark passes a row all of whose dispatch attempts failed —
with watermark 0, one new row (id 1) and both sink transports failing, the
cycle records a failed webhook attempt and a failed email attempt for
row 1 yet persists `last_processed_id = 1`, so the row is never retried. -/
theorem watermark_passes_failed_row :
    (checkForNewFormSubmissions envAllDown [⟨1, "a"⟩] ⟨0, 0⟩ 5).store.lastProcessedId = 1 ∧
    (checkForNewFormSubmissions envAllDown [⟨1, "a"⟩] ⟨0, 0⟩ 5).calls =
      [.webhook 1 false, .email 1 false] := by decide

/-- C2: the persisted watermark jumps past a failed row — in the part_001
revision (webhook failures throw into the loop's catch), with watermark 0
and batch ids [1, 2, 3] where only row 2's webhook fails, rows 1 and 3
succeed and the cycle persists `last_processed_id = 3`, jumping past the
failed row 2 instead of stopping at 1. -/
theorem watermark_jumps_past_failed_row_v1 :
    (checkForNewFormSubmissionsV1 envRow2Down [⟨1, "a"⟩, ⟨2, "b"⟩, ⟨3, "c"⟩] ⟨0, 0⟩ 9).store.lastProcessedId = 3 ∧
    (checkForNewFormSubmissionsV1 envRow2Down [⟨1, "a"⟩, ⟨2, "b"⟩, ⟨3, "c"⟩] ⟨0, 0⟩ 9).calls =
      [.webhook 1 true, .webhook 2 false, .webhook 3 true] := by decide

/-- Whether an awaited transport call completed without throwing. -/
def isOk : Except JsErr Unit → Bool
  | .ok _ => true
  | .error _ => false

/-- C7: Sink independence — with both sinks configured, processing one
submission always completes without an escaped exception and always
attempts the webhook and then the email, each attempt recorded with its
own transport outcome; in particular a failed webhook transport does not
suppress the email attempt, and vice versa. -/
theorem sink_independence (env : SinkEnv) (rid : Nat)
    (hw : env.webhookConfigured = true) (he : env.emailConfigured = true) :
    (processSubmission env rid).1 = .ok () ∧
    (processSubmission env rid).2 =
      [.webhook rid (isOk (env.webhookTransport rid)),
       .email rid (isOk (env.emailTransport rid))] := by
  unfold processSubmission sendWebhookNotification sendFormSubmissionEmail
  rw [hw, he]
  cases hwt : env.webhookTransport rid <;> cases het : env.emailTransport rid <;>
    simp [isOk, hwt, het]

/-- C7 witness: with a failing webhook transport and a succeeding email
transport, processing row 1 completes and records the failed webhook
attempt followed by the email attempt. -/
theorem sink_independence_witness :
    envWebhookDown.webhookConfigured = true ∧ envWebhookDown.emailConfigured = true ∧
    (processSubmission envWebhookDown 1).1 = .ok () ∧
    (processSubmission envWebhookDown 1).2 =
      [.webhook 1 (isOk (envWebhookDown.webhookTransport 1)),
       .email 1 (isOk (envWebhookDown.emailTransport 1))] := by
  have h := sink_independence envWebhookDown 1 rfl rfl
  exact ⟨rfl, rfl, h.1, h.2⟩

/-- A table name containing a character outside `[a-zA-Z0-9_]` fails the
allow-list test. -/
theorem isValidTableName_of_badChar {s : String}
    (h : ∃ c ∈ s.toList, isWordChar c = false) :
    isValidTableName s = false := by
  obtain ⟨c, hc, hw⟩ := h
  have hall : s.toList.all isWordChar = false := by
    rw [List.all_eq_false]
    exact ⟨c, hc, by simp [hw]⟩
  unfold isValidTableName
  rw [hall, Bool.and_false]

/-- C8: Table-name validation — a table name containing any character
outside `[a-zA-Z0-9_]` is answered with status 400 by every CRUD and
administrative endpoint that takes a table name, with no SQL statement
executed (the event trace is just the 400 response). -/
theorem invalid_table_name_rejected_before_sql (tableName : String)
    (hbad : ∃ c ∈ tableName.toList, isWordChar c = false) :
    ∀ (db : Db) (jsIsNum : String → Bool) (st : AppState) (now : Nat)
      (fp vp : Option String) (idOrGuid : String) (dataOpt : Option ReqData)
      (conds : ReqData) (ridOpt : Option Nat),
      ((getTableHandler db tableName).status = 400 ∧
        (getTableHandler db tableName).events = [.respond 400]) ∧
      ((searchTableHandler db tableName fp vp).status = 400 ∧
        (searchTableHandler db tableName fp vp).events = [.respond 400]) ∧
      ((getRecordHandler db jsIsNum tableName idOrGuid).status = 400 ∧
        (getRecordHandler db jsIsNum tableName idOrGuid).events = [.respond 400]) ∧
      ((postTableHandler db st now tableName dataOpt).status = 400 ∧
        (postTableHandler db st now tableName dataOpt).events = [.respond 400]) ∧
      ((putTableHandler db jsIsNum tableName idOrGuid dataOpt).status = 400 ∧
        (putTableHandler db jsIsNum tableName idOrGuid dataOpt).events = [.respond 400]) ∧
      ((deleteWhereHandler db tableName conds).status = 400 ∧
        (deleteWhereHandler db tableName conds).events = [.respond 400]) ∧
      ((deleteRecordHandler db jsIsNum tableName idOrGuid).status = 400 ∧
        (deleteRecordHandler db jsIsNum tableName idOrGuid).events = [.respond 400]) ∧
      ((resetTrackingHandler db st now tableName ridOpt).status = 400 ∧
        (resetTrackingHandler db st now tableName ridOpt).events = [.respond 400]) := by
  have hv := isValidTableName_of_badChar hbad
  intro db jsIsNum st now fp vp idOrGuid dataOpt conds ridOpt
  cases dataOpt <;>
    simp [getTableHandler, searchTableHandler, getRecordHandler, postTableHandler,
      putTableHandler, deleteWhereHandler, deleteRecordHandler, resetTrackingHandler, hv]

/-- C8 witness: the table name `users;drop` (containing `;`) is rejected
with status 400 and an SQL-free trace by all eight endpoints. -/
theorem invalid_table_name_rejected_before_sql_witness :
    (∃ c ∈ "users;drop".toList, isWordChar c = false) ∧
    (((getTableHandler dbEmpty "users;drop").status = 400 ∧
        (getTableHandler dbEmpty "users;drop").events = [.respond 400]) ∧
      ((searchTableHandler dbEmpty "users;drop" none none).status = 400 ∧
        (searchTableHandler dbEmpty "users;drop" none none).events = [.respond 400]) ∧
      ((getRecordHandler dbEmpty isDigitsOnly "users;drop" "1").status = 400 ∧
        (getRecordHandler dbEmpty isDigitsOnly "users;drop" "1").events = [.respond 400]) ∧
      ((postTableHandler dbEmpty ⟨0, ⟨0, 0⟩⟩ 0 "users;drop" none).status = 400 ∧
        (postTableHandler dbEmpty ⟨0, ⟨0, 0⟩⟩ 0 "users;drop" none).events = [.respond 400]) ∧
      ((putTableHandler dbEmpty isDigitsOnly "users;drop" "1" none).status = 400 ∧
        (putTableHandler dbEmpty isDigitsOnly "users;drop" "1" none).events = [.respond 400]) ∧
      ((deleteWhereHandler dbEmpty "users;drop" []).status = 400 ∧
        (deleteWhereHandler dbEmpty "users;drop" []).events = [.respond 400]) ∧
      ((deleteRecordHandler dbEmpty isDigitsOnly "users;drop" "1").status = 400 ∧
        (deleteRecordHandler dbEmpty isDigitsOnly "users;drop" "1").events = [.respond 400]) ∧
      ((resetTrackingHandler dbEmpty ⟨0, ⟨0, 0⟩⟩ 0 "users;drop" none).status = 400 ∧
        (resetTrackingHandler dbEmpty ⟨0, ⟨0, 0⟩⟩ 0 "users;drop" none).events = [.respond 400])) :=
  ⟨by decide,
   invalid_table_name_rejected_before_sql "users;drop" (by decide) dbEmpty isDigitsOnly
     ⟨0, ⟨0, 0⟩⟩ 0 none none "1" none [] none⟩

/-- C9: a successful insert into `form_submits` responds 200, sets the
in-memory watermark to `max(current, insertId)`, persists exactly that
value (with the current timestamp) to the tracking store before the
response is sent, dispatches no webhook and no email, and every row a
later poll cycle can detect has an id strictly above the insert id — so
polling skips the inserted row. -/
theorem form_submit_insert_advances_watermark_no_dispatch
    (db : Db) (st : AppState) (now : Nat) (d : ReqData)
    (hne : d.filter (fun kv => kv.1 ≠ "id") ≠ []) :
    (postTableHandler db st now "form_submits" (some d)).status = 200 ∧
    (postTableHandler db st now "form_submits" (some d)).state.lastKnownFormSubmitId =
      max st.lastKnownFormSubmitId
        (db.insertId "form_submits" (d.filter (fun kv => kv.1 ≠ "id"))) ∧
    (postTableHandler db st now "form_submits" (some d)).state.formTracking =
      ⟨max st.lastKnownFormSubmitId
        (db.insertId "form_submits" (d.filter (fun kv => kv.1 ≠ "id"))), now⟩ ∧
    (postTableHandler db st now "form_submits" (some d)).events =
      [.sql (.insert "form_submits" (d.filter (fun kv => kv.1 ≠ "id"))),
       .sql (.updateTrackingRow "form_submits"
         (max st.lastKnownFormSubmitId
           (db.insertId "form_submits" (d.filter (fun kv => kv.1 ≠ "id"))))),
       .respond 200] ∧
    (∀ c, Ev.dispatch c ∉ (postTableHandler db st now "form_submits" (some d)).events) ∧
    (∀ table r, r ∈ detectNewRows table
        (postTableHandler db st now "form_submits" (some d)).state.formTracking.lastProcessedId 50 →
      db.insertId "form_submits" (d.filter (fun kv => kv.1 ≠ "id")) < r.id) := by
  have hval : isValidTableName "form_submits" = true := by decide
  rcases hd : d.filter (fun kv => kv.1 ≠ "id") with _ | ⟨a, as⟩
  · exact absurd hd hne
  · have hres : postTableHandler db st now "form_submits" (some d) =
        ⟨200, some (db.insertId "form_submits" (a :: as)),
         ⟨max st.lastKnownFormSubmitId (db.insertId "form_submits" (a :: as)),
          ⟨max st.lastKnownFormSubmitId (db.insertId "form_submits" (a :: as)), now⟩⟩,
         [.sql (.insert "form_submits" (a :: as)),
          .sql (.updateTrackingRow "form_submits"
            (max st.lastKnownFormSubmitId (db.insertId "form_submits" (a :: as)))),
          .respond 200]⟩ := by
      simp only [postTableHandler]
      rw [hd, hval]
      rfl
    rw [hd, hres]
    refine ⟨rfl, rfl, rfl, rfl, ?_, ?_⟩
    · intro c
      simp
    · intro table r hr
      exact lt_of_le_of_lt (Nat.le_max_right _ _) (detectNewRows_gt table _ 50 r hr)

/-- C9 witness: inserting `{name: x}` into `form_submits` with in-memory
watermark 10 and `insertId` 42 yields status 200, watermark
`max 10 42 = 42` in memory and in the store, and a dispatch-free trace. -/
theorem form_submit_insert_advances_watermark_no_dispatch_witness :
    ([("name", "x")] : ReqData).filter (fun kv => kv.1 ≠ "id") ≠ [] ∧
    ((postTableHandler dbInsert42 ⟨10, ⟨10, 0⟩⟩ 5 "form_submits"
        (some [("name", "x")])).status = 200 ∧
      (postTableHandler dbInsert42 ⟨10, ⟨10, 0⟩⟩ 5 "form_submits"
        (some [("name", "x")])).state.lastKnownFormSubmitId =
        max 10 (dbInsert42.insertId "form_submits"
          (([("name", "x")] : ReqData).filter (fun kv => kv.1 ≠ "id"))) ∧
      (postTableHandler dbInsert42 ⟨10, ⟨10, 0⟩⟩ 5 "form_submits"
        (some [("name", "x")])).state.formTracking =
        ⟨max 10 (dbInsert42.insertId "form_submits"
          (([("name", "x")] : ReqData).filter (fun kv => kv.1 ≠ "id"))), 5⟩ ∧
      (postTableHandler dbInsert42 ⟨10, ⟨10, 0⟩⟩ 5 "form_submits"
        (some [("name", "x")])).events =
        [.sql (.insert "form_submits"
           (([("name", "x")] : ReqData).filter (fun kv => kv.1 ≠ "id"))),
         .sql (.updateTrackingRow "form_submits"
           (max 10 (dbInsert42.insertId "form_submits"
             (([("name", "x")] : ReqData).filter (fun kv => kv.1 ≠ "id"))))),
         .respond 200] ∧
      (∀ c, Ev.dispatch c ∉ (postTableHandler dbInsert42 ⟨10, ⟨10, 0⟩⟩ 5 "form_submits"
          (some [("name", "x")])).events) ∧
      (∀ table r, r ∈ detectNewRows table
          (postTableHandler dbInsert42 ⟨10, ⟨10, 0⟩⟩ 5 "form_submits"
            (some [("name", "x")])).state.formTracking.lastProcessedId 50 →
        dbInsert42.insertId "form_submits"
          (([("name", "x")] : ReqData).filter (fun kv => kv.1 ≠ "id")) < r.id)) :=
  ⟨by decide,
   form_submit_insert_advances_watermark_no_dispatch dbInsert42 ⟨10, ⟨10, 0⟩⟩ 5
     [("name", "x")] (by decide)⟩

/-- C10: record lookup by id or guid — with a valid table name the endpoint
always responds 200 (never 404); a numeric-looking parameter is looked up
by id first and returns that row on a hit, falling back to a guid lookup
on a miss; a non-numeric parameter is looked up by guid only; and in the
fallback cases the body is the first guid match or the empty object. -/
theorem get_record_lookup_order_no_404
    (db : Db) (jsIsNum : String → Bool) (tableName p : String)
    (hv : isValidTableName tableName = true) :
    (getRecordHandler db jsIsNum tableName p).status = 200 ∧
    (jsIsNum p = true → ∀ r rest, db.selectById tableName p = r :: rest →
      (getRecordHandler db jsIsNum tableName p).body = some r ∧
      (getRecordHandler db jsIsNum tableName p).events =
        [.sql (.selectById tableName p), .respond 200]) ∧
    (jsIsNum p = true → db.selectById tableName p = [] →
      (getRecordHandler db jsIsNum tableName p).body = (db.selectByGuid tableName p).head? ∧
      (getRecordHandler db jsIsNum tableName p).events =
        [.sql (.selectById tableName p), .sql (.selectByGuid tableName p), .respond 200]) ∧
    (jsIsNum p = false →
      (getRecordHandler db jsIsNum tableName p).body = (db.selectByGuid tableName p).head? ∧
      (getRecordHandler db jsIsNum tableName p).events =
        [.sql (.selectByGuid tableName p), .respond 200]) := by
  refine ⟨?_, ?_, ?_, ?_⟩
  · simp only [getRecordHandler, hv, Bool.not_true, Bool.false_eq_true, if_false]
    split
    · split <;> rfl
    · rfl
  · intro hj r rest hsel
    simp [getRecordHandler, hv, hj, hsel]
  · intro hj hsel
    simp [getRecordHandler, hv, hj, hsel]
  · intro hj
    simp [getRecordHandler, hv, hj]

/-- C10 witness: looking up the numeric-looking parameter 7 in
`blog_posts` in an empty database tries id first, falls back to guid,
and responds 200 with the empty object. -/
theorem get_record_lookup_order_no_404_witness :
    isValidTableName "blog_posts" = true ∧
    ((getRecordHandler dbEmpty isDigitsOnly "blog_posts" "7").status = 200 ∧
      (isDigitsOnly "7" = true → ∀ r rest, dbEmpty.selectById "blog_posts" "7" = r :: rest →
        (getRecordHandler dbEmpty isDigitsOnly "blog_posts" "7").body = some r ∧
        (getRecordHandler dbEmpty isDigitsOnly "blog_posts" "7").events =
          [.sql (.selectById "blog_posts" "7"), .respond 200]) ∧
      (isDigitsOnly "7" = true → dbEmpty.selectById "blog_posts" "7" = [] →
        (getRecordHandler dbEmpty isDigitsOnly "blog_posts" "7").body =
          (dbEmpty.selectByGuid "blog_posts" "7").head? ∧
        (getRecordHandler dbEmpty isDigitsOnly "blog_posts" "7").events =
          [.sql (.selectById "blog_posts" "7"), .sql (.selectByGuid "blog_posts" "7"),
           .respond 200]) ∧
      (isDigitsOnly "7" = false →
        (getRecordHandler dbEmpty isDigitsOnly "blog_posts" "7").body =
          (dbEmpty.selectByGuid "blog_posts" "7").head? ∧
        (getRecordHandler dbEmpty isDigitsOnly "blog_posts" "7").events =
          [.sql (.selectByGuid "blog_posts" "7"), .respond 200])) :=
  ⟨by decide,
   get_record_lookup_order_no_404 dbEmpty isDigitsOnly "blog_posts" "7" (by decide)⟩
